import Mathlib

/-!
Shallow embedding of `LLM_QA_CLI.py`, the core of a small question-answering
relay.  The pure text pipeline (`preprocess`, `construct_prompt`) is embedded
directly; the two HTTP provider adapters (`send_to_gemini`,
`send_to_huggingface`) are embedded as functions of an environment record
(the credential variables read via `os.getenv`) and of the HTTP response the
network would return for their request.  Python exceptions are embedded as
`Except.error` carrying the exception's message (`str(e)`), which is what the
orchestrator `ask_llm` appends to its error list.  JSON values
(`resp.json()`) are embedded as an inductive `Json` type.
-/

namespace LLMQA

/-! ### Character classes used by `preprocess`

`preprocess` uses `text.lower()`, `re.sub(r"[^\w\s]", "", text)` and
`text.split()`.  The regex classes `\w` and `\s` are modelled on their ASCII
fragment (the inputs of interest are ASCII): `\w` is alphanumerics plus
underscore, `\s` is the six ASCII whitespace characters. -/

def isWordChar (c : Char) : Bool :=
  c.isAlphanum || c == '_'

def isPySpace (c : Char) : Bool :=
  c == ' ' || c == '\t' || c == '\n' || c == '\x0b' || c == '\x0c' || c == '\r'

/-- The characters kept by `re.sub(r"[^\w\s]", "", text)`. -/
def keepChar (c : Char) : Bool :=
  isWordChar c || isPySpace c

/-! ### Python `str.split()` and `" ".join` on character lists

`str.split()` with no argument splits on runs of whitespace and drops empty
pieces.  `splitWsP` is the raw split on every whitespace character (producing
possibly-empty pieces); `pySplit` drops the empty pieces. -/

def splitWsP : List Char → List (List Char)
  | [] => [[]]
  | c :: cs =>
    if isPySpace c then
      [] :: splitWsP cs
    else
      match splitWsP cs with
      | [] => [[c]]
      | t :: ts => (c :: t) :: ts

def pySplit (l : List Char) : List (List Char) :=
  (splitWsP l).filter (fun t => !t.isEmpty)

/-- `" ".join(tokens)` on character lists. -/
def joinTokens : List (List Char) → List Char
  | [] => []
  | [t] => t
  | t :: t2 :: ts => t ++ ' ' :: joinTokens (t2 :: ts)

/-- `preprocess` from `LLM_QA_CLI.py`: lowercase, strip characters that are
neither word characters nor whitespace, split on whitespace, rejoin with
single spaces. -/
def preprocess (text : String) : String :=
  String.mk (joinTokens (pySplit ((text.data.map Char.toLower).filter keepChar)))

/-- `construct_prompt` from `LLM_QA_CLI.py`: fixed two-line template around
the processed question. -/
def construct_prompt (processed_question : String) : String :=
  "You are a helpful assistant. Answer concisely and clearly.\n" ++
  "Question: " ++ processed_question ++ "\nAnswer:"

/-! ### JSON values and their Python renderings -/

inductive Json where
  | null : Json
  | bool : Bool → Json
  | num : Int → Json
  | str : String → Json
  | arr : List Json → Json
  | obj : List (String × Json) → Json
deriving Repr

/-- `data["k"]` / `"k" in data` on a parsed JSON value: a field lookup that
succeeds only on objects. -/
def getField : Json → String → Option Json
  | Json.obj fs, k => fs.lookup k
  | _, _ => none

/-- `isinstance(x, dict)` for a parsed JSON value. -/
def isDict : Json → Bool
  | Json.obj _ => true
  | _ => false

/-- Escaping of one character inside a JSON string literal, as `json.dumps`
does for the common escapes. -/
def jsonEscapeChar (c : Char) : String :=
  if c == '\\' then "\\\\"
  else if c == '"' then "\\\""
  else if c == '\n' then "\\n"
  else if c == '\t' then "\\t"
  else if c == '\r' then "\\r"
  else String.singleton c

def jsonQuote (s : String) : String :=
  "\"" ++ String.join (s.data.map jsonEscapeChar) ++ "\""

mutual

/-- `json.dumps(data)` on a parsed JSON value (default separators). -/
def renderJson : Json → String
  | Json.null => "null"
  | Json.bool true => "true"
  | Json.bool false => "false"
  | Json.num n => toString n
  | Json.str s => jsonQuote s
  | Json.arr xs => "[" ++ renderArr xs ++ "]"
  | Json.obj fs => "\x7b" ++ renderObj fs ++ "\x7d"

def renderArr : List Json → String
  | [] => ""
  | [x] => renderJson x
  | x :: y :: xs => renderJson x ++ ", " ++ renderArr (y :: xs)

def renderObj : List (String × Json) → String
  | [] => ""
  | [(k, v)] => jsonQuote k ++ ": " ++ renderJson v
  | (k, v) :: f :: fs => jsonQuote k ++ ": " ++ renderJson v ++ ", " ++ renderObj (f :: fs)

end

mutual

/-- Python `repr()` of a value parsed from JSON (used by `str()` on
containers): `None`/`True`/`False`, numbers, single-quoted strings,
bracketed lists, braced dicts. -/
def pyRepr : Json → String
  | Json.null => "None"
  | Json.bool true => "True"
  | Json.bool false => "False"
  | Json.num n => toString n
  | Json.str s => "\x27" ++ s ++ "\x27"
  | Json.arr xs => "[" ++ pyReprArr xs ++ "]"
  | Json.obj fs => "\x7b" ++ pyReprObj fs ++ "\x7d"

def pyReprArr : List Json → String
  | [] => ""
  | [x] => pyRepr x
  | x :: y :: xs => pyRepr x ++ ", " ++ pyReprArr (y :: xs)

def pyReprObj : List (String × Json) → String
  | [] => ""
  | [(k, v)] => "\x27" ++ k ++ "\x27: " ++ pyRepr v
  | (k, v) :: f :: fs => "\x27" ++ k ++ "\x27: " ++ pyRepr v ++ ", " ++ pyReprObj (f :: fs)

end

/-- Python `str()` of a value parsed from JSON: the identity on strings,
`repr`-like otherwise. -/
def pyStr : Json → String
  | Json.str s => s
  | v => pyRepr v

/-- Python type name of a value parsed from JSON, as it appears in an
`AttributeError` message. -/
def pyTypeName : Json → String
  | Json.null => "NoneType"
  | Json.bool _ => "bool"
  | Json.num _ => "int"
  | Json.str _ => "str"
  | Json.arr _ => "list"
  | Json.obj _ => "dict"

/-- `str.strip()`: drop leading and trailing whitespace. -/
def pyStrip (s : String) : String :=
  String.mk (((s.data.dropWhile isPySpace).reverse.dropWhile isPySpace).reverse)

/-- Message of the `AttributeError` raised by calling a missing method
(e.g. `.strip()`) on a non-string value. -/
def attrError (v : Json) (meth : String) : String :=
  "\x27" ++ pyTypeName v ++ "\x27 object has no attribute \x27" ++ meth ++ "\x27"

/-- Message of the `TypeError` raised by `"".join(parts)` when a part is not
a string (exception text modelled, not byte-exact). -/
def joinTypeError : String :=
  "sequence item: expected str instance"

/-! ### Environment and HTTP model -/

/-- The environment variables the adapters read via `os.getenv`:
`none` models an unset variable. -/
structure Env where
  googleKey : Option String
  geminiKey : Option String
  hfToken : Option String
deriving Repr, DecidableEq

/-- Python truthiness of an `os.getenv` result: `None` and `""` are falsy. -/
def truthy : Option String → Bool
  | none => false
  | some s => !s.isEmpty

/-- Python `a or b` on `os.getenv` results: the first operand if truthy,
otherwise the second. -/
def pyOr (a b : Option String) : Option String :=
  if truthy a then a else b

/-- The HTTP response the network returns for an adapter's request:
`ok` and `status_code` and `text` are the `requests` response fields;
`body` models `resp.json()` (the claims quantify over JSON bodies). -/
structure HttpResp where
  ok : Bool
  status_code : Nat
  text : String
  body : Json
deriving Repr

/-! ### `send_to_gemini` -/

/-- The `candidates` branch of `send_to_gemini`'s response parsing:
`if "candidates" in data and isinstance(data["candidates"], list) and
data["candidates"]:` then, when the first candidate is a dict with an
`output` key, `return first["output"].strip()` — which raises
`AttributeError` when that value is not a string.  `none` means the branch
falls through. -/
def geminiCandidatesStep (data : Json) : Option (Except String String) :=
  match getField data "candidates" with
  | some (Json.arr (first :: _)) =>
    if isDict first then
      match getField first "output" with
      | some (Json.str s) => some (Except.ok (pyStrip s))
      | some v => some (Except.error (attrError v "strip"))
      | none => none
    else none
  | _ => none

/-- One element of the `parts` list comprehension inside the `outputs`
branch: `p.get("text", "") if isinstance(p, dict) else str(p)`. -/
def geminiPart (p : Json) : Json :=
  if isDict p then
    match getField p "text" with
    | some v => v
    | none => Json.str ""
  else Json.str (pyStr p)

/-- `"".join(parts)`: succeeds iff every part is a string, otherwise raises
`TypeError`. -/
def pyJoinStrs : List Json → Except String String
  | [] => Except.ok ""
  | Json.str s :: rest =>
    match pyJoinStrs rest with
    | Except.ok acc => Except.ok (s ++ acc)
    | Except.error e => Except.error e
  | _ :: _ => Except.error joinTypeError

/-- The `outputs` branch of `send_to_gemini`'s response parsing. -/
def geminiOutputsStep (data : Json) : Option (Except String String) :=
  match getField data "outputs" with
  | some (Json.arr (out0 :: _)) =>
    if isDict out0 then
      match getField out0 "content" with
      | some (Json.arr content) =>
        some (match pyJoinStrs (content.map geminiPart) with
              | Except.ok s => Except.ok (pyStrip s)
              | Except.error e => Except.error e)
      | some v => some (Except.ok (pyStrip (pyStr v)))
      | none => none
    else none
  | _ => none

/-- Parsing of a successful `send_to_gemini` response body (lines 48–72 of
`LLM_QA_CLI.py`): candidates branch, outputs branch, top-level `output`,
top-level `text`, and last-resort `json.dumps(data)`. -/
def parseGemini (data : Json) : Except String String :=
  if isDict data then
    match geminiCandidatesStep data with
    | some r => r
    | none =>
      match geminiOutputsStep data with
      | some r => r
      | none =>
        match getField data "output" with
        | some v => Except.ok (pyStrip (pyStr v))
        | none =>
          match getField data "text" with
          | some v => Except.ok (pyStrip (pyStr v))
          | none => Except.ok (renderJson data)
  else Except.ok (renderJson data)

/-- `send_to_gemini` from `LLM_QA_CLI.py`.  The request construction (URL,
payload with the prompt and the fixed generation parameters) has no
observable effect in the model, where the network's answer is the `resp`
argument; the credential check happens before any network request, hence
before `resp` is looked at.  `Except.error` carries `str(e)` of the raised
exception. -/
def send_to_gemini (env : Env) (resp : HttpResp) (_prompt : String) :
    Except String String :=
  let api_key := pyOr env.googleKey env.geminiKey
  if !truthy api_key then
    Except.error "GOOGLE_API_KEY (or GEMINI_API_KEY) not set"
  else if !resp.ok then
    Except.error ("Gemini API error: " ++ toString resp.status_code ++ " " ++ resp.text)
  else
    parseGemini resp.body

/-! ### `send_to_huggingface` -/

/-- Parsing of a successful `send_to_huggingface` response body (lines 84–87
of `LLM_QA_CLI.py`): if the body is a list whose first element is a dict,
return its `generated_text` value (a non-string value is returned as-is by
Python and rendered by `pyStr` in the model), with `json.dumps(out)` as the
`.get` default; otherwise `json.dumps(out)`. -/
def parseHuggingface (out : Json) : Except String String :=
  match out with
  | Json.arr (first :: _) =>
    if isDict first then
      match getField first "generated_text" with
      | some (Json.str s) => Except.ok s
      | some v => Except.ok (pyStr v)
      | none => Except.ok (renderJson out)
    else Except.ok (renderJson out)
  | _ => Except.ok (renderJson out)

/-- `send_to_huggingface` from `LLM_QA_CLI.py`. -/
def send_to_huggingface (env : Env) (resp : HttpResp) (_prompt : String) :
    Except String String :=
  if !truthy env.hfToken then
    Except.error "HUGGINGFACE_API_TOKEN not set"
  else if !resp.ok then
    Except.error ("HuggingFace API error: " ++ toString resp.status_code ++ " " ++ resp.text)
  else
    parseHuggingface resp.body

/-! ### The orchestrator `ask_llm` -/

/-- The dict returned by `ask_llm`. -/
structure AnswerRecord where
  question : String
  processed : String
  prompt : String
  answer : String
  source : String
  errors : List String
deriving Repr, DecidableEq

/-- The synthetic answer substituted when every provider fails. -/
def simulatedAnswer (processed : String) : String :=
  "[SIMULATED RESPONSE — no API key configured] Processed question: " ++ processed

/-- `ask_llm` from `LLM_QA_CLI.py`, with the two adapters passed as the
functions of the prompt that the code calls (`send_to_gemini` and
`send_to_huggingface`, partially applied to the ambient environment and the
network's response in the instantiated model).  Every adapter exception is
caught; its message is appended to `errors`. -/
def ask_llm (gemini huggingface : String → Except String String)
    (question : String) : AnswerRecord :=
  let processed := preprocess question
  let prompt := construct_prompt processed
  match gemini prompt with
  | Except.ok answer =>
    ⟨question, processed, prompt, answer, "gemini", []⟩
  | Except.error e =>
    match huggingface prompt with
    | Except.ok answer =>
      ⟨question, processed, prompt, answer, "huggingface", [e]⟩
    | Except.error e2 =>
      ⟨question, processed, prompt, simulatedAnswer processed, "simulated", [e, e2]⟩

/-- The providers `ask_llm` invokes, in order: the first adapter always, the
second exactly when the first raised. -/
def invokedProviders (gemini : String → Except String String)
    (question : String) : List String :=
  match gemini (construct_prompt (preprocess question)) with
  | Except.ok _ => ["gemini"]
  | Except.error _ => ["gemini", "huggingface"]

/-! ### Lemmas about the normalizer -/

theorem toLower_eq (c : Char) :
    Char.toLower c =
      if c.toNat ≥ 65 ∧ c.toNat ≤ 90 then Char.ofNat (c.toNat + 32) else c := rfl

theorem toNat_ofNat_valid (m : Nat) (hv : m.isValidChar) :
    (Char.ofNat m).toNat = m := by
  rw [Char.ofNat, dif_pos hv]
  rfl

theorem toLower_idem (c : Char) : (Char.toLower c).toLower = Char.toLower c := by
  by_cases h : c.toNat ≥ 65 ∧ c.toNat ≤ 90
  · have hv : (c.toNat + 32).isValidChar := Or.inl (by omega)
    have ht : (Char.ofNat (c.toNat + 32)).toNat = c.toNat + 32 :=
      toNat_ofNat_valid _ hv
    rw [toLower_eq c, if_pos h, toLower_eq, ht, if_neg (by omega)]
  · rw [toLower_eq c, if_neg h, toLower_eq, if_neg h]

theorem splitWsP_ne_nil (l : List Char) : splitWsP l ≠ [] := by
  induction l with
  | nil => simp [splitWsP]
  | cons c cs ih =>
    simp only [splitWsP]
    cases hc : isPySpace c
    · simp only [Bool.false_eq_true, if_false]
      cases hs : splitWsP cs <;> simp
    · simp

theorem mem_splitWsP_not_space {l : List Char} {t : List Char} {c : Char}
    (ht : t ∈ splitWsP l) (hc : c ∈ t) : isPySpace c = false := by
  induction l generalizing t with
  | nil =>
    simp only [splitWsP, List.mem_singleton] at ht
    subst ht
    exact absurd hc (List.not_mem_nil c)
  | cons a cs ih =>
    simp only [splitWsP] at ht
    cases ha : isPySpace a
    · rw [ha] at ht
      simp only [Bool.false_eq_true, if_false] at ht
      cases hs : splitWsP cs with
      | nil => exact absurd hs (splitWsP_ne_nil cs)
      | cons hd tl =>
        rw [hs] at ht
        rcases List.mem_cons.mp ht with h1 | h2
        · subst h1
          rcases List.mem_cons.mp hc with h3 | h4
          · subst h3; exact ha
          · exact ih (hs ▸ List.mem_cons_self hd tl) h4
        · exact ih (hs ▸ List.mem_cons_of_mem hd h2) hc
    · rw [ha] at ht
      simp only [if_true] at ht
      rcases List.mem_cons.mp ht with h1 | h2
      · subst h1; exact absurd hc (List.not_mem_nil c)
      · exact ih h2 hc

theorem mem_splitWsP_mem {l : List Char} {t : List Char} {c : Char}
    (ht : t ∈ splitWsP l) (hc : c ∈ t) : c ∈ l := by
  induction l generalizing t with
  | nil =>
    simp only [splitWsP, List.mem_singleton] at ht
    subst ht
    exact absurd hc (List.not_mem_nil c)
  | cons a cs ih =>
    simp only [splitWsP] at ht
    cases ha : isPySpace a
    · rw [ha] at ht
      simp only [Bool.false_eq_true, if_false] at ht
      cases hs : splitWsP cs with
      | nil => exact absurd hs (splitWsP_ne_nil cs)
      | cons hd tl =>
        rw [hs] at ht
        rcases List.mem_cons.mp ht with h1 | h2
        · subst h1
          rcases List.mem_cons.mp hc with h3 | h4
          · rw [h3]; exact List.mem_cons_self a cs
          · exact List.mem_cons_of_mem a (ih (hs ▸ List.mem_cons_self hd tl) h4)
        · exact List.mem_cons_of_mem a (ih (hs ▸ List.mem_cons_of_mem hd h2) hc)
    · rw [ha] at ht
      simp only [if_true] at ht
      rcases List.mem_cons.mp ht with h1 | h2
      · subst h1; exact absurd hc (List.not_mem_nil c)
      · exact List.mem_cons_of_mem a (ih h2 hc)

theorem splitWsP_cons (c : Char) (cs : List Char) :
    splitWsP (c :: cs) =
      if isPySpace c then [] :: splitWsP cs
      else match splitWsP cs with
           | [] => [[c]]
           | t :: ts => (c :: t) :: ts := rfl

theorem splitWsP_append_token {t l : List Char} {hd : List Char}
    {tl : List (List Char)} (h : ∀ c ∈ t, isPySpace c = false)
    (hl : splitWsP l = hd :: tl) : splitWsP (t ++ l) = (t ++ hd) :: tl := by
  induction t with
  | nil => simpa using hl
  | cons a t' ih =>
    have ha : isPySpace a = false := h a (List.mem_cons_self a t')
    have ht' : ∀ c ∈ t', isPySpace c = false :=
      fun c hc => h c (List.mem_cons_of_mem a hc)
    rw [List.cons_append, splitWsP_cons, if_neg (by simp [ha]), ih ht']
    rfl

theorem pySplit_joinTokens {ts : List (List Char)}
    (h : ∀ t ∈ ts, t ≠ [] ∧ ∀ c ∈ t, isPySpace c = false) :
    pySplit (joinTokens ts) = ts := by
  induction ts with
  | nil => simp [joinTokens, pySplit, splitWsP]
  | cons t ts ih =>
    obtain ⟨htne, htc⟩ := h t (List.mem_cons_self t ts)
    have htt : (!t.isEmpty) = true := by
      simpa [List.isEmpty_iff] using htne
    cases ts with
    | nil =>
      have h1 : splitWsP (t ++ ([] : List Char)) = (t ++ []) :: [] :=
        splitWsP_append_token htc rfl
      rw [List.append_nil] at h1
      have hstep : List.filter (fun u => !u.isEmpty) [t] =
          t :: List.filter (fun u => !u.isEmpty) [] :=
        List.filter_cons_of_pos htt
      show pySplit (joinTokens [t]) = [t]
      unfold joinTokens pySplit
      rw [h1, hstep, List.filter_nil]
    | cons t2 ts' =>
      have hrest : pySplit (joinTokens (t2 :: ts')) = t2 :: ts' :=
        ih (fun u hu => h u (List.mem_cons_of_mem t hu))
      obtain ⟨hd, tl, hs⟩ :
          ∃ hd tl, splitWsP (joinTokens (t2 :: ts')) = hd :: tl := by
        cases hx : splitWsP (joinTokens (t2 :: ts')) with
        | nil => exact absurd hx (splitWsP_ne_nil _)
        | cons hd tl => exact ⟨hd, tl, rfl⟩
      have hsp : splitWsP (' ' :: joinTokens (t2 :: ts')) =
          [] :: hd :: tl := by
        rw [splitWsP_cons, if_pos (by decide), hs]
      have h1 : splitWsP (t ++ ' ' :: joinTokens (t2 :: ts')) =
          (t ++ []) :: hd :: tl := splitWsP_append_token htc hsp
      rw [List.append_nil] at h1
      show pySplit (t ++ ' ' :: joinTokens (t2 :: ts')) = t :: t2 :: ts'
      have hstep : List.filter (fun u => !u.isEmpty) (t :: hd :: tl) =
          t :: List.filter (fun u => !u.isEmpty) (hd :: tl) :=
        List.filter_cons_of_pos htt
      unfold pySplit
      rw [h1, hstep, ← hs]
      exact congrArg (List.cons t) hrest

theorem mem_joinTokens {ts : List (List Char)} {c : Char}
    (hc : c ∈ joinTokens ts) : (∃ t ∈ ts, c ∈ t) ∨ c = ' ' := by
  induction ts with
  | nil => exact absurd hc (List.not_mem_nil c)
  | cons t ts ih =>
    cases ts with
    | nil =>
      simp only [joinTokens] at hc
      exact Or.inl ⟨t, List.mem_cons_self t [], hc⟩
    | cons t2 ts' =>
      simp only [joinTokens] at hc
      rcases List.mem_append.mp hc with h1 | h2
      · exact Or.inl ⟨t, List.mem_cons_self t _, h1⟩
      · rcases List.mem_cons.mp h2 with h3 | h4
        · exact Or.inr h3
        · rcases ih h4 with ⟨u, hu, hcu⟩ | h5
          · exact Or.inl ⟨u, List.mem_cons_of_mem t hu, hcu⟩
          · exact Or.inr h5

theorem preprocess_data (s : String) :
    (preprocess s).data =
      joinTokens (pySplit ((s.data.map Char.toLower).filter keepChar)) := rfl

/-- Every character of a normalized string survives the filter, is a fixed
point of lowercasing, and is a word character or a plain space. -/
theorem preprocess_chars {s : String} {c : Char}
    (hc : c ∈ (preprocess s).data) :
    keepChar c = true ∧ Char.toLower c = c ∧
      (isWordChar c = true ∨ c = ' ') := by
  rw [preprocess_data] at hc
  rcases mem_joinTokens hc with ⟨t, ht, hct⟩ | hsp
  · have ht0 : t ∈ List.filter (fun u => !u.isEmpty)
        (splitWsP ((s.data.map Char.toLower).filter keepChar)) := ht
    have htw : t ∈ splitWsP ((s.data.map Char.toLower).filter keepChar) :=
      (List.mem_filter.mp ht0).1
    have hmem : c ∈ (s.data.map Char.toLower).filter keepChar :=
      mem_splitWsP_mem htw hct
    have hkeep : keepChar c = true := (List.mem_filter.mp hmem).2
    have hmap : c ∈ s.data.map Char.toLower := (List.mem_filter.mp hmem).1
    obtain ⟨c0, _, hc0⟩ := List.mem_map.mp hmap
    have hfix : Char.toLower c = c := by rw [← hc0]; exact toLower_idem c0
    have hnsp : isPySpace c = false := mem_splitWsP_not_space htw hct
    refine ⟨hkeep, hfix, Or.inl ?_⟩
    unfold keepChar at hkeep
    rcases Bool.or_eq_true_iff.mp hkeep with hw | hs
    · exact hw
    · rw [hs] at hnsp; exact absurd hnsp (by simp)
  · subst hsp
    exact ⟨by decide, by decide, Or.inr rfl⟩

/-- Every token of a normalized string (as split back out) is non-empty and
free of whitespace. -/
theorem pySplit_tokens {l : List Char} {t : List Char} (ht : t ∈ pySplit l) :
    t ≠ [] ∧ ∀ c ∈ t, isPySpace c = false := by
  have ht0 : t ∈ List.filter (fun u => !u.isEmpty) (splitWsP l) := ht
  have h1 := List.mem_filter.mp ht0
  refine ⟨?_, fun c hc => mem_splitWsP_not_space h1.1 hc⟩
  intro hnil
  subst hnil
  simpa using h1.2

theorem preprocess_idem_aux (s : String) :
    preprocess (preprocess s) = preprocess s := by
  have hmap : (preprocess s).data.map Char.toLower = (preprocess s).data := by
    have : ∀ c ∈ (preprocess s).data, Char.toLower c = c :=
      fun c hc => (preprocess_chars hc).2.1
    calc (preprocess s).data.map Char.toLower
        = (preprocess s).data.map id := List.map_congr_left this
      _ = (preprocess s).data := List.map_id _
  have hfil : (preprocess s).data.filter keepChar = (preprocess s).data :=
    List.filter_eq_self.mpr (fun c hc => (preprocess_chars hc).1)
  have hsplit : pySplit (preprocess s).data =
      pySplit ((s.data.map Char.toLower).filter keepChar) := by
    rw [preprocess_data]
    exact pySplit_joinTokens (fun t ht => pySplit_tokens ht)
  apply String.ext
  rw [preprocess_data (preprocess s), hmap, hfil, hsplit, ← preprocess_data]

/-! ### Lemmas about the orchestrator -/

theorem ask_llm_eq (g h : String → Except String String) (q : String) :
    ask_llm g h q =
      match g (construct_prompt (preprocess q)) with
      | Except.ok a =>
        ⟨q, preprocess q, construct_prompt (preprocess q), a, "gemini", []⟩
      | Except.error e =>
        match h (construct_prompt (preprocess q)) with
        | Except.ok a =>
          ⟨q, preprocess q, construct_prompt (preprocess q), a, "huggingface", [e]⟩
        | Except.error e2 =>
          ⟨q, preprocess q, construct_prompt (preprocess q),
            simulatedAnswer (preprocess q), "simulated", [e, e2]⟩ := rfl

/-! ### Claims -/

/-- Claim C1: for every question string and every behavior of the two
provider adapters (success, or failure with any exception message), the
orchestrator `ask_llm` returns an `AnswerRecord` — it is a total function,
so no exception propagates to its caller — and every adapter failure is
caught and recorded as a string in the record's error list. -/
theorem C1_ask_llm_never_raises_records_errors
    (gemini huggingface : String → Except String String) (question : String) :
    (∀ e, gemini (construct_prompt (preprocess question)) = Except.error e →
      e ∈ (ask_llm gemini huggingface question).errors) ∧
    (∀ e e2, gemini (construct_prompt (preprocess question)) = Except.error e →
      huggingface (construct_prompt (preprocess question)) = Except.error e2 →
      (ask_llm gemini huggingface question).errors = [e, e2]) := by
  constructor
  · intro e he
    rw [ask_llm_eq, he]
    cases hh : huggingface (construct_prompt (preprocess question)) <;>
      simp [hh]
  · intro e e2 he hh
    rw [ask_llm_eq, he, hh]

/-- Witness for C1 at a pair of always-failing adapters. -/
theorem C1_witness :
    "boom" ∈ (ask_llm (fun _ => Except.error "boom")
      (fun _ => Except.error "crash") "q").errors :=
  (C1_ask_llm_never_raises_records_errors
    (fun _ => Except.error "boom") (fun _ => Except.error "crash") "q").1
    "boom" rfl

/-- Claim C2: if the Provider A adapter fails and the Provider B adapter
succeeds with answer `a`, then `ask_llm` returns a record with
`answer = a`, `source = "huggingface"`, and Provider A's failure message in
the error list; Provider B is invoked only after Provider A has failed, and
is not invoked when Provider A succeeds. -/
theorem C2_fallback_order
    (gemini huggingface : String → Except String String) (question : String) :
    (∀ e a, gemini (construct_prompt (preprocess question)) = Except.error e →
      huggingface (construct_prompt (preprocess question)) = Except.ok a →
      (ask_llm gemini huggingface question).answer = a ∧
      (ask_llm gemini huggingface question).source = "huggingface" ∧
      e ∈ (ask_llm gemini huggingface question).errors ∧
      invokedProviders gemini question = ["gemini", "huggingface"]) ∧
    (∀ a, gemini (construct_prompt (preprocess question)) = Except.ok a →
      invokedProviders gemini question = ["gemini"]) := by
  constructor
  · intro e a he ha
    rw [ask_llm_eq, he, ha]
    refine ⟨rfl, rfl, by simp, ?_⟩
    rw [invokedProviders, he]
  · intro a ha
    rw [invokedProviders, ha]

/-- Witness for C2 at a failing first adapter and a succeeding second one. -/
theorem C2_witness :
    (ask_llm (fun _ => Except.error "no key")
      (fun _ => Except.ok "Paris") "q").answer = "Paris" ∧
    (ask_llm (fun _ => Except.error "no key")
      (fun _ => Except.ok "Paris") "q").source = "huggingface" ∧
    "no key" ∈ (ask_llm (fun _ => Except.error "no key")
      (fun _ => Except.ok "Paris") "q").errors ∧
    invokedProviders (fun _ => Except.error "no key") "q" =
      ["gemini", "huggingface"] :=
  (C2_fallback_order (fun _ => Except.error "no key")
    (fun _ => Except.ok "Paris") "q").1 "no key" "Paris" rfl rfl

/-- Claim C3: if both provider adapters fail, `ask_llm` returns a record
whose answer is exactly the simulated-response string concatenated with the
processed question and whose source is `"simulated"`; in particular for
"What is the Capital of France?" with no credentials configured, the
processed question is "what is the capital of france", the source is
`"simulated"`, and the answer contains that processed string. -/
theorem C3_total_fallback :
    (∀ (gemini huggingface : String → Except String String) (q e e2 : String),
      gemini (construct_prompt (preprocess q)) = Except.error e →
      huggingface (construct_prompt (preprocess q)) = Except.error e2 →
      (ask_llm gemini huggingface q).answer =
        "[SIMULATED RESPONSE — no API key configured] Processed question: "
          ++ preprocess q ∧
      (ask_llm gemini huggingface q).source = "simulated") ∧
    (∀ gresp hresp : HttpResp,
      (ask_llm (send_to_gemini ⟨none, none, none⟩ gresp)
        (send_to_huggingface ⟨none, none, none⟩ hresp)
        "What is the Capital of France?").processed =
          "what is the capital of france" ∧
      (ask_llm (send_to_gemini ⟨none, none, none⟩ gresp)
        (send_to_huggingface ⟨none, none, none⟩ hresp)
        "What is the Capital of France?").source = "simulated" ∧
      (ask_llm (send_to_gemini ⟨none, none, none⟩ gresp)
        (send_to_huggingface ⟨none, none, none⟩ hresp)
        "What is the Capital of France?").answer =
          "[SIMULATED RESPONSE — no API key configured] Processed question: "
            ++ "what is the capital of france") := by
  constructor
  · intro gemini huggingface q e e2 he hh
    rw [ask_llm_eq, he, hh]
    exact ⟨rfl, rfl⟩
  · intro gresp hresp
    have hg : send_to_gemini ⟨none, none, none⟩ gresp
        (construct_prompt (preprocess "What is the Capital of France?")) =
        Except.error "GOOGLE_API_KEY (or GEMINI_API_KEY) not set" := rfl
    have hh : send_to_huggingface ⟨none, none, none⟩ hresp
        (construct_prompt (preprocess "What is the Capital of France?")) =
        Except.error "HUGGINGFACE_API_TOKEN not set" := rfl
    rw [ask_llm_eq, hg, hh]
    refine ⟨by decide, rfl, ?_⟩
    rfl

/-- Witness for C3 at a pair of always-failing adapters. -/
theorem C3_witness :
    (ask_llm (fun _ => Except.error "e1") (fun _ => Except.error "e2")
      "Hi there!").answer =
      "[SIMULATED RESPONSE — no API key configured] Processed question: "
        ++ preprocess "Hi there!" ∧
    (ask_llm (fun _ => Except.error "e1") (fun _ => Except.error "e2")
      "Hi there!").source = "simulated" :=
  C3_total_fallback.1 (fun _ => Except.error "e1") (fun _ => Except.error "e2")
    "Hi there!" "e1" "e2" rfl rfl

theorem isPySpace_toNat_lt {c : Char} (h : isPySpace c = true) :
    c.toNat < 65 := by
  simp only [isPySpace, Bool.or_eq_true, beq_iff_eq] at h
  rcases h with ((((h | h) | h) | h) | h) | h <;> subst h <;> decide

theorem toLower_of_space {c : Char} (h : isPySpace c = true) :
    Char.toLower c = c := by
  rw [toLower_eq, if_neg]
  intro hcon
  have := isPySpace_toNat_lt h
  omega

theorem pySplit_all_space {l : List Char}
    (h : ∀ c ∈ l, isPySpace c = true) : pySplit l = [] := by
  induction l with
  | nil => rfl
  | cons a cs ih =>
    have ha : isPySpace a = true := h a (List.mem_cons_self a cs)
    have hstep : List.filter (fun u => !u.isEmpty) ([] :: splitWsP cs) =
        List.filter (fun u => !u.isEmpty) (splitWsP cs) :=
      List.filter_cons_of_neg (by simp)
    unfold pySplit
    rw [splitWsP_cons, if_pos ha, hstep]
    exact ih (fun c hc => h c (List.mem_cons_of_mem a hc))

theorem preprocess_all_space {s : String}
    (h : ∀ c ∈ s.data, isPySpace c = true) : preprocess s = "" := by
  have hclean : ∀ c ∈ (s.data.map Char.toLower).filter keepChar,
      isPySpace c = true := by
    intro c hc
    have h1 := List.mem_filter.mp hc
    obtain ⟨c0, hc0mem, hc0⟩ := List.mem_map.mp h1.1
    have hsp : isPySpace c0 = true := h c0 hc0mem
    rw [← hc0, toLower_of_space hsp]
    exact hsp
  apply String.ext
  rw [preprocess_data, pySplit_all_space hclean]
  rfl

/-- Claim C4: the normalizer `preprocess` is idempotent. -/
theorem C4_preprocess_idempotent (x : String) :
    preprocess (preprocess x) = preprocess x :=
  preprocess_idem_aux x

/-- Claim C5: `preprocess` lowercases, removes every character that is
neither a word character nor whitespace, splits on whitespace and rejoins
with single spaces: `"Hello, World!"` becomes `"hello world"`, empty and
whitespace-only input yields the empty string (accepted, not rejected), and
every output character is a word character or a single plain space. -/
theorem C5_preprocess_normalization :
    preprocess "Hello, World!" = "hello world" ∧
    preprocess "" = "" ∧
    (∀ s : String, (∀ c ∈ s.data, isPySpace c = true) → preprocess s = "") ∧
    (∀ s : String, ∀ c ∈ (preprocess s).data,
      isWordChar c = true ∨ c = ' ') := by
  refine ⟨by decide, rfl, ?_, ?_⟩
  · exact fun s h => preprocess_all_space h
  · exact fun s c hc => (preprocess_chars hc).2.2

/-- Witness for C5 on a tab-and-spaces-only input. -/
theorem C5_witness : preprocess " \t " = "" :=
  C5_preprocess_normalization.2.2.1 " \t " (by decide)

/-- Claim C6: the prompt builder `construct_prompt` is injective: distinct
processed questions yield distinct prompts. -/
theorem C6_construct_prompt_injective (p1 p2 : String) (h : p1 ≠ p2) :
    construct_prompt p1 ≠ construct_prompt p2 := by
  intro heq
  apply h
  have hd : (construct_prompt p1).data = (construct_prompt p2).data :=
    congrArg String.data heq
  simp only [construct_prompt, String.data_append, List.append_assoc] at hd
  have h1 := List.append_cancel_left hd
  have h2 := List.append_cancel_left h1
  have h3 := List.append_cancel_right h2
  exact String.ext h3

/-- Witness for C6 at two distinct processed questions. -/
theorem C6_witness : construct_prompt "a" ≠ construct_prompt "b" :=
  C6_construct_prompt_injective "a" "b" (by decide)

/-! ### Lemmas about the adapters -/

theorem send_to_gemini_eq (env : Env) (resp : HttpResp) (pr : String) :
    send_to_gemini env resp pr =
      if !truthy (pyOr env.googleKey env.geminiKey) then
        Except.error "GOOGLE_API_KEY (or GEMINI_API_KEY) not set"
      else if !resp.ok then
        Except.error ("Gemini API error: " ++ toString resp.status_code ++ " "
          ++ resp.text)
      else parseGemini resp.body := rfl

theorem truthy_pyOr (a b : Option String) :
    truthy (pyOr a b) = (truthy a || truthy b) := by
  unfold pyOr
  cases ht : truthy a <;> simp [ht]

/-- The response body of the C7 scenario. -/
def geminiParisBody : Json :=
  Json.obj [("candidates", Json.arr [Json.obj [("output", Json.str "Paris")]])]

/-- A successful gemini response body whose first candidate's `output` is a
number, not a string. -/
def geminiBadBody : Json :=
  Json.obj [("candidates", Json.arr [Json.obj [("output", Json.num 5)]])]

/-- The recognized response shape of the huggingface adapter: a list whose
first element is an object carrying a `generated_text` field. -/
def hfShapeMatches (out : Json) : Bool :=
  match out with
  | Json.arr (first :: _) => isDict first && (getField first "generated_text").isSome
  | _ => false

/-- No recognized gemini response shape applies: neither the candidates
branch nor the outputs branch fires, and there is no top-level `output` or
`text` field. -/
def geminiUnrecognized (data : Json) : Bool :=
  match data with
  | Json.obj _ =>
    (geminiCandidatesStep data).isNone && (geminiOutputsStep data).isNone &&
    (getField data "output").isNone && (getField data "text").isNone
  | _ => true

theorem parseHuggingface_first_obj (fs : List (String × Json))
    (rest : List Json) :
    parseHuggingface (Json.arr (Json.obj fs :: rest)) =
      (match getField (Json.obj fs) "generated_text" with
       | some (Json.str s) => Except.ok s
       | some v => Except.ok (pyStr v)
       | none => Except.ok (renderJson (Json.arr (Json.obj fs :: rest)))) := rfl

theorem parseHuggingface_ok (out : Json) :
    ∃ s, parseHuggingface out = Except.ok s := by
  cases out with
  | arr xs =>
    cases xs with
    | nil => exact ⟨_, rfl⟩
    | cons first rest =>
      cases first with
      | obj fs =>
        rw [parseHuggingface_first_obj]
        cases hg : getField (Json.obj fs) "generated_text" with
        | none => exact ⟨_, rfl⟩
        | some v => cases v <;> exact ⟨_, rfl⟩
      | null => exact ⟨_, rfl⟩
      | bool b => exact ⟨_, rfl⟩
      | num n => exact ⟨_, rfl⟩
      | str s => exact ⟨_, rfl⟩
      | arr ys => exact ⟨_, rfl⟩
  | null => exact ⟨_, rfl⟩
  | bool b => exact ⟨_, rfl⟩
  | num n => exact ⟨_, rfl⟩
  | str s => exact ⟨_, rfl⟩
  | obj fs => exact ⟨_, rfl⟩

theorem parseHuggingface_unmatched {out : Json}
    (h : hfShapeMatches out = false) :
    parseHuggingface out = Except.ok (renderJson out) := by
  cases out with
  | arr xs =>
    cases xs with
    | nil => rfl
    | cons first rest =>
      unfold hfShapeMatches at h
      rw [Bool.and_eq_false_iff] at h
      cases first with
      | obj fs =>
        rcases h with h | h
        · exact absurd h (by simp [isDict])
        · rw [parseHuggingface_first_obj]
          cases hg : getField (Json.obj fs) "generated_text" with
          | none => rfl
          | some v => rw [hg] at h; simp at h
      | null => rfl
      | bool b => rfl
      | num n => rfl
      | str s => rfl
      | arr ys => rfl
  | null => rfl
  | bool b => rfl
  | num n => rfl
  | str s => rfl
  | obj fs => rfl

theorem parseGemini_unrecognized {data : Json}
    (h : geminiUnrecognized data = true) :
    parseGemini data = Except.ok (renderJson data) := by
  cases data with
  | obj fs =>
    unfold geminiUnrecognized at h
    rw [Bool.and_eq_true, Bool.and_eq_true, Bool.and_eq_true] at h
    obtain ⟨⟨⟨hc, ho⟩, hout⟩, htxt⟩ := h
    have heq : parseGemini (Json.obj fs) =
        (match geminiCandidatesStep (Json.obj fs) with
         | some r => r
         | none =>
           match geminiOutputsStep (Json.obj fs) with
           | some r => r
           | none =>
             match getField (Json.obj fs) "output" with
             | some v => Except.ok (pyStrip (pyStr v))
             | none =>
               match getField (Json.obj fs) "text" with
               | some v => Except.ok (pyStrip (pyStr v))
               | none => Except.ok (renderJson (Json.obj fs))) := rfl
    rw [heq, Option.isNone_iff_eq_none.mp hc, Option.isNone_iff_eq_none.mp ho,
      Option.isNone_iff_eq_none.mp hout, Option.isNone_iff_eq_none.mp htxt]
  | null => rfl
  | bool b => rfl
  | num n => rfl
  | str s => rfl
  | arr xs => rfl

/-- Claim C7: a successful Provider A response with body
`{"candidates":[{"output":"Paris"}]}` makes the adapter return `"Paris"`,
and `ask_llm` then records source `"gemini"`. -/
theorem C7_gemini_success (env : Env) (resp : HttpResp) (pr : String)
    (hkey : truthy (pyOr env.googleKey env.geminiKey) = true)
    (hok : resp.ok = true) (hbody : resp.body = geminiParisBody) :
    send_to_gemini env resp pr = Except.ok "Paris" ∧
    ∀ (hf : String → Except String String) (q : String),
      (ask_llm (send_to_gemini env resp) hf q).source = "gemini" ∧
      (ask_llm (send_to_gemini env resp) hf q).answer = "Paris" := by
  have hsend : ∀ pr2 : String,
      send_to_gemini env resp pr2 = Except.ok "Paris" := by
    intro pr2
    rw [send_to_gemini_eq, hkey, hok, hbody]
    rfl
  refine ⟨hsend pr, ?_⟩
  intro hf q
  rw [ask_llm_eq, hsend (construct_prompt (preprocess q))]
  exact ⟨rfl, rfl⟩

/-- Witness for C7 at a concrete key, response and downstream adapter. -/
theorem C7_witness :
    send_to_gemini ⟨some "k", none, none⟩ ⟨true, 200, "", geminiParisBody⟩ "p" =
      Except.ok "Paris" ∧
    (ask_llm (send_to_gemini ⟨some "k", none, none⟩
        ⟨true, 200, "", geminiParisBody⟩) (fun _ => Except.error "x")
      "q").source = "gemini" := by
  have h := C7_gemini_success ⟨some "k", none, none⟩
    ⟨true, 200, "", geminiParisBody⟩ "p" rfl rfl rfl
  exact ⟨h.1, (h.2 (fun _ => Except.error "x") "q").1⟩

/-- Claim C8: each adapter fails with its configuration error exactly when
its credential is absent, independently of any network response (hence
before any request): `send_to_gemini` reads `GOOGLE_API_KEY` then
`GEMINI_API_KEY` with the first truthy value winning, and fails iff both
are empty or unset; `send_to_huggingface` reads `HUGGINGFACE_API_TOKEN` and
fails iff it is empty or unset. -/
theorem C8_credential_checks :
    (∀ env : Env,
      (truthy env.googleKey = false ∧ truthy env.geminiKey = false) ↔
      ∀ (resp : HttpResp) (pr : String),
        send_to_gemini env resp pr =
          Except.error "GOOGLE_API_KEY (or GEMINI_API_KEY) not set") ∧
    (∀ env : Env, truthy env.googleKey = true →
      pyOr env.googleKey env.geminiKey = env.googleKey) ∧
    (∀ env : Env, truthy env.googleKey = false →
      pyOr env.googleKey env.geminiKey = env.geminiKey) ∧
    (∀ env : Env,
      truthy env.hfToken = false ↔
      ∀ (resp : HttpResp) (pr : String),
        send_to_huggingface env resp pr =
          Except.error "HUGGINGFACE_API_TOKEN not set") := by
  refine ⟨?_, ?_, ?_, ?_⟩
  · intro env
    constructor
    · rintro ⟨h1, h2⟩ resp pr
      have hk : truthy (pyOr env.googleKey env.geminiKey) = false := by
        rw [truthy_pyOr, h1, h2]
        rfl
      rw [send_to_gemini_eq, hk]
      rfl
    · intro hall
      cases hk : truthy (pyOr env.googleKey env.geminiKey)
      · rw [truthy_pyOr] at hk
        constructor
        · cases hg : truthy env.googleKey
          · rfl
          · rw [hg] at hk; simp at hk
        · cases hg : truthy env.geminiKey
          · rfl
          · rw [hg] at hk; simp at hk
      · exfalso
        have hcalc : send_to_gemini env ⟨true, 200, "", Json.null⟩ "p" =
            Except.ok "null" := by
          rw [send_to_gemini_eq, hk]
          rfl
        rw [hall ⟨true, 200, "", Json.null⟩ "p"] at hcalc
        exact absurd hcalc (by simp)
  · intro env h
    simp [pyOr, h]
  · intro env h
    simp [pyOr, h]
  · intro env
    constructor
    · intro h resp pr
      unfold send_to_huggingface
      rw [h]
      rfl
    · intro hall
      cases hk : truthy env.hfToken
      · rfl
      · exfalso
        have hcalc : send_to_huggingface env ⟨true, 200, "", Json.null⟩ "p" =
            Except.ok "null" := by
          unfold send_to_huggingface
          rw [hk]
          rfl
        rw [hall ⟨true, 200, "", Json.null⟩ "p"] at hcalc
        exact absurd hcalc (by simp)

/-- Witness for C8: with no variables set, both adapters fail with their
configuration errors, and with `GOOGLE_API_KEY` set it wins over
`GEMINI_API_KEY`. -/
theorem C8_witness :
    send_to_gemini ⟨none, none, none⟩ ⟨true, 200, "", Json.null⟩ "p" =
      Except.error "GOOGLE_API_KEY (or GEMINI_API_KEY) not set" ∧
    send_to_huggingface ⟨none, none, none⟩ ⟨true, 200, "", Json.null⟩ "p" =
      Except.error "HUGGINGFACE_API_TOKEN not set" ∧
    pyOr (some "g1") (some "g2") = some "g1" :=
  ⟨(C8_credential_checks.1 ⟨none, none, none⟩).mp ⟨rfl, rfl⟩
      ⟨true, 200, "", Json.null⟩ "p",
    (C8_credential_checks.2.2.2 ⟨none, none, none⟩).mp rfl
      ⟨true, 200, "", Json.null⟩ "p",
    C8_credential_checks.2.1 ⟨some "g1", some "g2", none⟩ rfl⟩

/-- Counterexample to C9 as stated: on a successful HTTP response whose JSON
body is `{"candidates":[{"output":5}]}` — a recognized shape carrying a
non-string payload — `send_to_gemini` raises (`AttributeError` from
`first["output"].strip()`) instead of returning the raw JSON text, so
adapter failure is not limited to missing credentials and non-success HTTP
status. -/
theorem C9_counterexample :
    send_to_gemini ⟨some "k", none, none⟩ ⟨true, 200, "", geminiBadBody⟩ "p" =
      Except.error "\x27int\x27 object has no attribute \x27strip\x27" := rfl

/-- Claim C9 (amended): on a successful HTTP response
`send_to_huggingface` never raises — for every JSON body it returns a
string, and the raw JSON serialized as text when the body is not a list
whose first element is an object with a generated-text field — and
`send_to_gemini` returns the raw JSON serialized as text whenever none of
its recognized shapes matches; but `send_to_gemini` can raise on a
successful response when a recognized shape is present with a non-string
payload. -/
theorem C9_amended_parse_robustness :
    (∀ (env : Env) (resp : HttpResp) (pr : String),
      truthy env.hfToken = true → resp.ok = true →
      ∃ s, send_to_huggingface env resp pr = Except.ok s) ∧
    (∀ (env : Env) (resp : HttpResp) (pr : String),
      truthy env.hfToken = true → resp.ok = true →
      hfShapeMatches resp.body = false →
      send_to_huggingface env resp pr = Except.ok (renderJson resp.body)) ∧
    (∀ (env : Env) (resp : HttpResp) (pr : String),
      truthy (pyOr env.googleKey env.geminiKey) = true → resp.ok = true →
      geminiUnrecognized resp.body = true →
      send_to_gemini env resp pr = Except.ok (renderJson resp.body)) := by
  refine ⟨?_, ?_, ?_⟩
  · intro env resp pr htok hok
    obtain ⟨s, hs⟩ := parseHuggingface_ok resp.body
    refine ⟨s, ?_⟩
    unfold send_to_huggingface
    rw [htok, hok]
    exact hs
  · intro env resp pr htok hok hshape
    unfold send_to_huggingface
    rw [htok, hok]
    exact parseHuggingface_unmatched hshape
  · intro env resp pr hkey hok hshape
    rw [send_to_gemini_eq, hkey, hok]
    exact parseGemini_unrecognized hshape

/-- Witness for C9 (amended) at a token, an unrecognized body and a key. -/
theorem C9_amended_witness :
    send_to_huggingface ⟨none, none, some "t"⟩ ⟨true, 200, "", Json.num 7⟩ "p" =
      Except.ok (renderJson (Json.num 7)) ∧
    send_to_gemini ⟨some "k", none, none⟩ ⟨true, 200, "", Json.obj []⟩ "p" =
      Except.ok (renderJson (Json.obj [])) :=
  ⟨C9_amended_parse_robustness.2.1 ⟨none, none, some "t"⟩
      ⟨true, 200, "", Json.num 7⟩ "p" rfl rfl rfl,
    C9_amended_parse_robustness.2.2 ⟨some "k", none, none⟩
      ⟨true, 200, "", Json.obj []⟩ "p" rfl rfl rfl⟩

/-- Claim C10: the record returned by `ask_llm` satisfies: source
`"gemini"` implies no recorded errors; source `"huggingface"` implies
exactly one recorded error, Provider A's message; source `"simulated"`
implies exactly two recorded errors, Provider A's then Provider B's; and
the source is always one of these three values. -/
theorem C10_record_invariants
    (gemini huggingface : String → Except String String) (q : String) :
    ((ask_llm gemini huggingface q).source = "gemini" →
      (ask_llm gemini huggingface q).errors = []) ∧
    ((ask_llm gemini huggingface q).source = "huggingface" →
      ∃ e, gemini (construct_prompt (preprocess q)) = Except.error e ∧
        (ask_llm gemini huggingface q).errors = [e]) ∧
    ((ask_llm gemini huggingface q).source = "simulated" →
      ∃ e e2, gemini (construct_prompt (preprocess q)) = Except.error e ∧
        huggingface (construct_prompt (preprocess q)) = Except.error e2 ∧
        (ask_llm gemini huggingface q).errors = [e, e2]) ∧
    ((ask_llm gemini huggingface q).source = "gemini" ∨
      (ask_llm gemini huggingface q).source = "huggingface" ∨
      (ask_llm gemini huggingface q).source = "simulated") := by
  cases hg : gemini (construct_prompt (preprocess q)) with
  | ok a =>
    rw [ask_llm_eq, hg]
    refine ⟨fun _ => rfl, fun h => absurd h (by simp),
      fun h => absurd h (by simp), Or.inl rfl⟩
  | error e =>
    cases hh : huggingface (construct_prompt (preprocess q)) with
    | ok a =>
      rw [ask_llm_eq, hg, hh]
      refine ⟨fun h => absurd h (by simp), fun _ => ⟨e, rfl, rfl⟩,
        fun h => absurd h (by simp), Or.inr (Or.inl rfl)⟩
    | error e2 =>
      rw [ask_llm_eq, hg, hh]
      refine ⟨fun h => absurd h (by simp), fun h => absurd h (by simp),
        fun _ => ⟨e, e2, rfl, rfl, rfl⟩, Or.inr (Or.inr rfl)⟩

/-- Witness for C10 at a pair of always-failing adapters. -/
theorem C10_witness :
    ∃ e e2, (fun _ => Except.error "a" : String → Except String String)
        (construct_prompt (preprocess "q")) = Except.error e ∧
      (fun _ => Except.error "b" : String → Except String String)
        (construct_prompt (preprocess "q")) = Except.error e2 ∧
      (ask_llm (fun _ => Except.error "a") (fun _ => Except.error "b")
        "q").errors = [e, e2] :=
  (C10_record_invariants (fun _ => Except.error "a")
    (fun _ => Except.error "b") "q").2.2.1 rfl

end LLMQA
